import Mathlib

/-!
Verification of the model-construction core of the simple-energy-storage-optimizer
repository (`src/optimization/ProblemConfiguration.py`,
`src/optimization/StorageSelectionProblem.py`).

The build phase is shallowly embedded as follows.

* `ProblemConfiguration` mirrors the Python configuration record field by field.
  Scenario and day counts are natural numbers (the code only uses them as
  `range(...)` lengths and as a division denominator).
* Machine floats are embedded as rationals.
* Randomness: the code draws from the process-global numpy generator
  (`np.random.normal(mean, std, n)`), sequentially, in a fixed order
  (per scenario: solar then consumption; then purchase prices, then sell
  prices).  We model the underlying stream of standard-normal variates as a
  function `rng : ℕ → ℚ` together with the cursor position `base` that the
  global state has reached when the build starts; a draw from
  `normal(mean, std)` at stream position `k` is `mean + std * rng k`.
* Solver variables (`solver.IntVar` / `solver.NumVar`) become `DeclVar`
  records; `solver.Infinity()` becomes an absent (`none`) upper bound.
* Constraints (`solver.Add(lhs == rhs)` / `solver.Add(lhs <= rhs)`) become
  `LinConstraint` records whose two sides are affine expressions over
  variable identifiers, written exactly as the Python expressions are.
* The objective handed to `solver.Minimize` becomes an `AffExpr`; the
  `estimated /= number_of_scenarios` step raises Python's
  `ZeroDivisionError` when the scenario count is zero, which is modelled by
  `buildObjective` / `buildModel` returning `Except`.
-/

/-- Mirror of `ProblemConfiguration.__init__`: a plain record of numeric
parameters.  Field order and names follow the Python class. -/
structure ProblemConfiguration where
  max_watts_per_module : ℚ
  area_per_module_in_m2 : ℚ
  price_per_module_in_euro : ℚ
  max_number_of_modules : ℚ
  min_number_of_modules : ℚ
  storage_price_per_kwh_in_euro : ℚ
  min_storage_size_in_kwh : ℚ
  max_storage_size_in_kwh : ℚ
  number_of_scenarios : ℕ
  number_of_days : ℕ
deriving DecidableEq

/-- Number of timeslots of the horizon: the code always iterates
`range(number_of_days * 24)`. -/
def timeslotCount (cfg : ProblemConfiguration) : ℕ :=
  cfg.number_of_days * 24

/-- The six per-(scenario, timeslot) operational fields, named after the keys
of the nested variable dictionary in `_buildScenarioVariablesForScenario`. -/
inductive VarField
  | storageLevel
  | storageEnergyDelta
  | producedEnergy
  | consumedEnergy
  | boughtEnergy
  | soldEnergy
deriving DecidableEq

/-- Identifier of a declared decision variable: the two base variables or a
scenario variable addressed by `(scenario, timeslot, field)`. -/
inductive VarId
  | numberOfModules
  | sizeOfStorageInKwh
  | scenarioVar (s t : ℕ) (f : VarField)
deriving DecidableEq

/-- An affine expression over decision variables: a list of
(coefficient, variable) terms plus a constant. -/
structure AffExpr where
  terms : List (ℚ × VarId)
  const : ℚ
deriving DecidableEq

/-- Relation of an emitted constraint (`==` or `<=` in the Python code). -/
inductive ConstraintRel
  | eqRel
  | leRel
deriving DecidableEq

/-- One constraint handed to `solver.Add`, kept as the two affine sides the
Python expression is written with. -/
structure LinConstraint where
  lhs : AffExpr
  rel : ConstraintRel
  rhs : AffExpr
deriving DecidableEq

/-- Value of an affine expression under an assignment of the variables. -/
def evalAff (ν : VarId → ℚ) (e : AffExpr) : ℚ :=
  (e.terms.map fun p => p.1 * ν p.2).sum + e.const

/-- Satisfaction of a single constraint by an assignment. -/
def LinConstraint.sat (ν : VarId → ℚ) (c : LinConstraint) : Prop :=
  match c.rel with
  | .eqRel => evalAff ν c.lhs = evalAff ν c.rhs
  | .leRel => evalAff ν c.lhs ≤ evalAff ν c.rhs

instance (ν : VarId → ℚ) (c : LinConstraint) : Decidable (c.sat ν) := by
  unfold LinConstraint.sat
  cases c.rel <;> infer_instance

/-! ## Sampling (`np.random.normal` draws in program order) -/

/-- One draw of `np.random.normal(mean, stddev)` taken at position `k` of the
global stream of standard-normal variates. -/
def normalDraw (mean stddev : ℚ) (rng : ℕ → ℚ) (k : ℕ) : ℚ :=
  mean + stddev * rng k

/-- Stream position of the `t`-th solar draw of scenario `s`: every scenario
consumes `2 * timeslotCount` draws (solar block, then consumption block). -/
def solarPos (cfg : ProblemConfiguration) (base s t : ℕ) : ℕ :=
  base + 2 * timeslotCount cfg * s + t

/-- Stream position of the `t`-th consumption draw of scenario `s`. -/
def usagePos (cfg : ProblemConfiguration) (base s t : ℕ) : ℕ :=
  base + 2 * timeslotCount cfg * s + timeslotCount cfg + t

/-- Stream position of the `t`-th purchase-price draw (taken in
`_buildObjective`, after all scenarios' constraint sampling). -/
def purchasePos (cfg : ProblemConfiguration) (base t : ℕ) : ℕ :=
  base + 2 * timeslotCount cfg * cfg.number_of_scenarios + t

/-- Stream position of the `t`-th sell-price draw. -/
def sellPos (cfg : ProblemConfiguration) (base t : ℕ) : ℕ :=
  base + 2 * timeslotCount cfg * cfg.number_of_scenarios + timeslotCount cfg + t

/-- Total number of draws one `buildModel` run consumes from the stream. -/
def drawsConsumed (cfg : ProblemConfiguration) : ℕ :=
  2 * timeslotCount cfg * cfg.number_of_scenarios + 2 * timeslotCount cfg

/-- `scenario_watt_production[t] = np.random.normal(500, 200, ...)[t]`. -/
def scenarioWattProductionRaw (cfg : ProblemConfiguration) (rng : ℕ → ℚ)
    (base s t : ℕ) : ℚ :=
  normalDraw 500 200 rng (solarPos cfg base s t)

/-- `np.maximum(scenario_watt_production, 0)`. -/
def scenarioWattProductionClamped (cfg : ProblemConfiguration) (rng : ℕ → ℚ)
    (base s t : ℕ) : ℚ :=
  max (scenarioWattProductionRaw cfg rng base s t) 0

/-- `scenario_watt_production * area_per_module_in_m2`. -/
def scenarioWattProductionPerModule (cfg : ProblemConfiguration) (rng : ℕ → ℚ)
    (base s t : ℕ) : ℚ :=
  scenarioWattProductionClamped cfg rng base s t * cfg.area_per_module_in_m2

/-- `np.minimum(scenario_watt_production_per_module, max_watts_per_module)`:
the coefficient that ends up in the production-link constraint. -/
def solarCoeff (cfg : ProblemConfiguration) (rng : ℕ → ℚ) (base s t : ℕ) : ℚ :=
  min (scenarioWattProductionPerModule cfg rng base s t) cfg.max_watts_per_module

/-- `np.maximum(np.random.normal(10000, 2000, ...), 0)[t]`: the consumption
profile value of scenario `s` at timeslot `t`. -/
def scenarioWattUsage (cfg : ProblemConfiguration) (rng : ℕ → ℚ)
    (base s t : ℕ) : ℚ :=
  max (normalDraw 10000 2000 rng (usagePos cfg base s t)) 0

/-- `energy_purchase_prices[t] = np.random.normal(0.5, 0.0, ...)[t]`. -/
def energyPurchasePrice (cfg : ProblemConfiguration) (rng : ℕ → ℚ)
    (base t : ℕ) : ℚ :=
  normalDraw (1 / 2) 0 rng (purchasePos cfg base t)

/-- `energy_selling_prices[t] = np.random.normal(0.12, 0.0, ...)[t]`. -/
def energySellingPrice (cfg : ProblemConfiguration) (rng : ℕ → ℚ)
    (base t : ℕ) : ℚ :=
  normalDraw (12 / 100) 0 rng (sellPos cfg base t)

/-- Sampled solar profile of one scenario, as the array the code computes. -/
def solarProfileList (cfg : ProblemConfiguration) (rng : ℕ → ℚ)
    (base s : ℕ) : List ℚ :=
  (List.range (timeslotCount cfg)).map (solarCoeff cfg rng base s)

/-- Sampled consumption profile of one scenario. -/
def usageProfileList (cfg : ProblemConfiguration) (rng : ℕ → ℚ)
    (base s : ℕ) : List ℚ :=
  (List.range (timeslotCount cfg)).map (scenarioWattUsage cfg rng base s)

/-! ## Variable declarations -/

/-- Kind of a declared variable (`solver.IntVar` vs `solver.NumVar`). -/
inductive VarKind
  | integerKind
  | continuousKind
deriving DecidableEq

/-- One variable declaration: identifier, kind and inclusive bounds;
`none` as upper bound models `solver.Infinity()`. -/
structure DeclVar where
  id : VarId
  kind : VarKind
  lowerBound : ℚ
  upperBound : Option ℚ
deriving DecidableEq

/-- `_buildBaseVariables`: the integer module count and the continuous
storage size, with bounds taken from the configuration. -/
def buildBaseVariables (cfg : ProblemConfiguration) : List DeclVar :=
  [⟨.numberOfModules, .integerKind,
      cfg.min_number_of_modules, some cfg.max_number_of_modules⟩,
   ⟨.sizeOfStorageInKwh, .continuousKind,
      cfg.min_storage_size_in_kwh, some cfg.max_storage_size_in_kwh⟩]

/-- `_buildScenarioVariablesForScenario`: for every timeslot, the six
continuous operational variables, in dictionary order. -/
def buildScenarioVariablesForScenario (cfg : ProblemConfiguration)
    (s : ℕ) : List DeclVar :=
  (List.range (timeslotCount cfg)).flatMap fun t =>
    [⟨.scenarioVar s t .storageLevel, .continuousKind,
        0, some (cfg.max_storage_size_in_kwh * 1000)⟩,
     ⟨.scenarioVar s t .storageEnergyDelta, .continuousKind,
        -(cfg.max_storage_size_in_kwh * 1000),
        some (cfg.max_storage_size_in_kwh * 1000)⟩,
     ⟨.scenarioVar s t .producedEnergy, .continuousKind, 0, none⟩,
     ⟨.scenarioVar s t .consumedEnergy, .continuousKind, 0, none⟩,
     ⟨.scenarioVar s t .boughtEnergy, .continuousKind, 0, none⟩,
     ⟨.scenarioVar s t .soldEnergy, .continuousKind, 0, none⟩]

/-- `_buildScenarioVariables`: one block per scenario. -/
def buildScenarioVariables (cfg : ProblemConfiguration) : List DeclVar :=
  (List.range cfg.number_of_scenarios).flatMap
    (buildScenarioVariablesForScenario cfg)

/-- Every variable `buildModel` declares, in declaration order. -/
def allVariables (cfg : ProblemConfiguration) : List DeclVar :=
  buildBaseVariables cfg ++ buildScenarioVariables cfg

/-! ## Constraints -/

/-- `produced_energy == scenario_watt_production_per_module[t] * numberOfModules`. -/
def producedEnergyC (cfg : ProblemConfiguration) (rng : ℕ → ℚ)
    (base s t : ℕ) : LinConstraint :=
  ⟨⟨[(1, .scenarioVar s t .producedEnergy)], 0⟩, .eqRel,
   ⟨[(solarCoeff cfg rng base s t, .numberOfModules)], 0⟩⟩

/-- `consumed_energy == scenario_watt_usage[t]`. -/
def consumedEnergyC (cfg : ProblemConfiguration) (rng : ℕ → ℚ)
    (base s t : ℕ) : LinConstraint :=
  ⟨⟨[(1, .scenarioVar s t .consumedEnergy)], 0⟩, .eqRel,
   ⟨[], scenarioWattUsage cfg rng base s t⟩⟩

/-- `produced_energy - consumed_energy == sold_energy + store_energy_delta - bought_energy`. -/
def energyBalanceC (s t : ℕ) : LinConstraint :=
  ⟨⟨[(1, .scenarioVar s t .producedEnergy),
     (-1, .scenarioVar s t .consumedEnergy)], 0⟩, .eqRel,
   ⟨[(1, .scenarioVar s t .soldEnergy),
     (1, .scenarioVar s t .storageEnergyDelta),
     (-1, .scenarioVar s t .boughtEnergy)], 0⟩⟩

/-- `storage_level == 0`, emitted only at timeslot 0. -/
def initialLevelC (s : ℕ) : LinConstraint :=
  ⟨⟨[(1, .scenarioVar s 0 .storageLevel)], 0⟩, .eqRel, ⟨[], 0⟩⟩

/-- `storage_level == last storageLevel + last storageEnergyDelta`,
emitted only at timeslots `t ≠ 0`; both references are to timeslot `t - 1`. -/
def levelRecursionC (s t : ℕ) : LinConstraint :=
  ⟨⟨[(1, .scenarioVar s t .storageLevel)], 0⟩, .eqRel,
   ⟨[(1, .scenarioVar s (t - 1) .storageLevel),
     (1, .scenarioVar s (t - 1) .storageEnergyDelta)], 0⟩⟩

/-- `storage_level <= sizeOfStorageInKwh * 1000`. -/
def capacityC (s t : ℕ) : LinConstraint :=
  ⟨⟨[(1, .scenarioVar s t .storageLevel)], 0⟩, .leRel,
   ⟨[(1000, .sizeOfStorageInKwh)], 0⟩⟩

/-- The constraints one iteration of the timeslot loop of
`_buildScenarioConstraints` emits, in emission order: production link,
consumption link, balance, the initial condition when `t == 0`, the
recursion when `t != 0`, capacity. -/
def timeslotConstraints (cfg : ProblemConfiguration) (rng : ℕ → ℚ)
    (base s t : ℕ) : List LinConstraint :=
  [producedEnergyC cfg rng base s t,
   consumedEnergyC cfg rng base s t,
   energyBalanceC s t]
  ++ (if t = 0 then [initialLevelC s] else [])
  ++ (if t ≠ 0 then [levelRecursionC s t] else [])
  ++ [capacityC s t]

/-- `_buildScenarioConstraints` for scenario `s`: all timeslots in
increasing order. -/
def buildScenarioConstraints (cfg : ProblemConfiguration) (rng : ℕ → ℚ)
    (base s : ℕ) : List LinConstraint :=
  (List.range (timeslotCount cfg)).flatMap (timeslotConstraints cfg rng base s)

/-- `_buildConstraints`: all scenarios in increasing order. -/
def buildConstraints (cfg : ProblemConfiguration) (rng : ℕ → ℚ)
    (base : ℕ) : List LinConstraint :=
  (List.range cfg.number_of_scenarios).flatMap
    (buildScenarioConstraints cfg rng base)

/-! ## Objective -/

/-- Pointwise sum of two affine expressions (`+` on solver expressions). -/
def addAff (e₁ e₂ : AffExpr) : AffExpr :=
  ⟨e₁.terms ++ e₂.terms, e₁.const + e₂.const⟩

/-- Scaling of an affine expression (multiplication / division by a
constant on solver expressions). -/
def scaleAff (q : ℚ) (e : AffExpr) : AffExpr :=
  ⟨e.terms.map fun p => (p.1 * q, p.2), e.const * q⟩

/-- Left fold of `+` starting from the literal `0`, as the accumulation
loop over `scenario_costs` does. -/
def sumAff (l : List AffExpr) : AffExpr :=
  l.foldl addAff ⟨[], 0⟩

/-- `_calculate_scenario_costs`: per timeslot,
`costs += purchase_price[t] * (boughtEnergy / 1000)` then
`costs -= selling_price[t] * (soldEnergy / 1000)`. -/
def calculateScenarioCosts (cfg : ProblemConfiguration) (rng : ℕ → ℚ)
    (base s : ℕ) : AffExpr :=
  ⟨(List.range (timeslotCount cfg)).flatMap fun t =>
      [(energyPurchasePrice cfg rng base t * (1 / 1000),
          .scenarioVar s t .boughtEnergy),
       (-(energySellingPrice cfg rng base t * (1 / 1000)),
          .scenarioVar s t .soldEnergy)],
   0⟩

/-- `investment = numberOfModules * price_per_module_in_euro
+ sizeOfStorageInKwh * storage_price_per_kwh_in_euro`. -/
def investmentExpr (cfg : ProblemConfiguration) : AffExpr :=
  ⟨[(cfg.price_per_module_in_euro, .numberOfModules),
    (cfg.storage_price_per_kwh_in_euro, .sizeOfStorageInKwh)], 0⟩

/-- The expression handed to `solver.Minimize`: investment plus the sum of
the per-scenario costs divided by the scenario count. -/
def objectiveExpr (cfg : ProblemConfiguration) (rng : ℕ → ℚ)
    (base : ℕ) : AffExpr :=
  addAff (investmentExpr cfg)
    (scaleAff (1 / (cfg.number_of_scenarios : ℚ))
      (sumAff ((List.range cfg.number_of_scenarios).map
        (calculateScenarioCosts cfg rng base))))

/-- The only runtime failure of the build phase: the
`estimated_costs_during_optimization_period /= number_of_scenarios` step
raises `ZeroDivisionError` when the scenario count is zero (the loop added
nothing, so the statement divides the integer 0 by 0). -/
inductive BuildError
  | zeroDivisionInObjective
deriving DecidableEq

/-- `_buildObjective`: fails only through the division by the scenario
count; performs no configuration validation. -/
def buildObjective (cfg : ProblemConfiguration) (rng : ℕ → ℚ)
    (base : ℕ) : Except BuildError AffExpr :=
  if cfg.number_of_scenarios = 0 then .error .zeroDivisionInObjective
  else .ok (objectiveExpr cfg rng base)

/-- Everything `buildModel` hands to the solver. -/
structure BuiltModel where
  declaredVars : List DeclVar
  constraints : List LinConstraint
  objective : AffExpr
deriving DecidableEq

/-- `buildModel`: declares variables, emits constraints, builds the
objective.  Variables and constraints are always produced; the only error
is the scenario-count division in the objective stage, which in the code
happens after every variable has already been declared. -/
def buildModel (cfg : ProblemConfiguration) (rng : ℕ → ℚ)
    (base : ℕ) : Except BuildError BuiltModel :=
  match buildObjective cfg rng base with
  | .error e => .error e
  | .ok obj => .ok ⟨allVariables cfg, buildConstraints cfg rng base, obj⟩

/-! ## Helper lemmas on list combinators -/

theorem length_range_bind_const {α : Type} (n k : ℕ) (f : ℕ → List α)
    (h : ∀ i, (f i).length = k) :
    ((List.range n).flatMap f).length = n * k := by
  induction n with
  | zero => simp
  | succ m ih =>
    rw [List.range_succ, List.flatMap_append, List.length_append, ih]
    simp [h m, Nat.succ_mul]

theorem timeslotConstraints_length (cfg : ProblemConfiguration)
    (rng : ℕ → ℚ) (base s t : ℕ) :
    (timeslotConstraints cfg rng base s t).length = 5 := by
  by_cases h : t = 0 <;> simp [timeslotConstraints, h]

/-- C4 preparation: each scenario emits `timeslotCount * 5` constraints. -/
theorem buildScenarioConstraints_length (cfg : ProblemConfiguration)
    (rng : ℕ → ℚ) (base s : ℕ) :
    (buildScenarioConstraints cfg rng base s).length = timeslotCount cfg * 5 :=
  length_range_bind_const _ _ _
    (fun t => timeslotConstraints_length cfg rng base s t)

/-- C3/C4: the declared claims' count invariants, proved for every
configuration. -/
theorem buildScenarioVariablesForScenario_length (cfg : ProblemConfiguration)
    (s : ℕ) :
    (buildScenarioVariablesForScenario cfg s).length = timeslotCount cfg * 6 :=
  length_range_bind_const _ _ _ (fun _ => rfl)

theorem allVariables_length (cfg : ProblemConfiguration) :
    (allVariables cfg).length
      = 2 + 6 * cfg.number_of_scenarios * (cfg.number_of_days * 24) := by
  have h : (buildScenarioVariables cfg).length
      = cfg.number_of_scenarios * (timeslotCount cfg * 6) :=
    length_range_bind_const _ _ _
      (buildScenarioVariablesForScenario_length cfg)
  simp only [allVariables, List.length_append, h, buildBaseVariables,
    List.length_cons, List.length_nil, timeslotCount]
  ring

theorem list_range_map_sum (n : ℕ) (f : ℕ → ℚ) :
    ((List.range n).map f).sum = ∑ i in Finset.range n, f i := by
  induction n with
  | zero => simp
  | succ m ih =>
    rw [List.range_succ, List.map_append, List.sum_append,
      Finset.sum_range_succ, ih]
    simp

theorem list_sum_flatMap {α : Type} (l : List α) (f : α → List ℚ) :
    (l.flatMap f).sum = (l.map fun a => (f a).sum).sum := by
  induction l with
  | nil => simp
  | cons a l ih => simp [List.flatMap_cons, List.sum_append, ih]

theorem evalAff_addAff (ν : VarId → ℚ) (e₁ e₂ : AffExpr) :
    evalAff ν (addAff e₁ e₂) = evalAff ν e₁ + evalAff ν e₂ := by
  simp [evalAff, addAff]
  ring

theorem evalAff_scaleAff (ν : VarId → ℚ) (q : ℚ) (e : AffExpr) :
    evalAff ν (scaleAff q e) = q * evalAff ν e := by
  simp only [evalAff, scaleAff, List.map_map]
  rw [show ((fun p : ℚ × VarId => p.1 * ν p.2) ∘ fun p : ℚ × VarId => (p.1 * q, p.2))
        = fun p : ℚ × VarId => q * (p.1 * ν p.2) from funext fun p => by simp; ring]
  rw [List.sum_map_mul_left]
  ring

theorem evalAff_foldl_addAff (ν : VarId → ℚ) (l : List AffExpr) (e : AffExpr) :
    evalAff ν (l.foldl addAff e) = evalAff ν e + (l.map (evalAff ν)).sum := by
  induction l generalizing e with
  | nil => simp
  | cons a l ih =>
    rw [List.foldl_cons, ih, evalAff_addAff]
    simp [add_assoc]

theorem evalAff_sumAff (ν : VarId → ℚ) (l : List AffExpr) :
    evalAff ν (sumAff l) = (l.map (evalAff ν)).sum := by
  rw [sumAff, evalAff_foldl_addAff]
  simp [evalAff]

theorem evalAff_calculateScenarioCosts (cfg : ProblemConfiguration)
    (rng : ℕ → ℚ) (base s : ℕ) (ν : VarId → ℚ) :
    evalAff ν (calculateScenarioCosts cfg rng base s) =
      ∑ t in Finset.range (timeslotCount cfg),
        (energyPurchasePrice cfg rng base t
            * (ν (VarId.scenarioVar s t .boughtEnergy) / 1000)
         - energySellingPrice cfg rng base t
            * (ν (VarId.scenarioVar s t .soldEnergy) / 1000)) := by
  unfold evalAff calculateScenarioCosts
  simp only [List.map_flatMap, list_sum_flatMap, add_zero]
  rw [list_range_map_sum]
  exact Finset.sum_congr rfl fun t _ => by simp; ring

/-! ## Concrete instances used for witnesses and counterexamples -/

/-- The constructor defaults of `ProblemConfiguration.__init__` (area 1.2 m²
as the rational 6/5) with a one-scenario, one-day horizon. -/
def smallConfiguration : ProblemConfiguration :=
  ⟨800, 6 / 5, 670, 100, 0, 1400, 0, 1000, 1, 1⟩

/-- A concrete stream of standard-normal variates, identically zero. -/
def zeroStream : ℕ → ℚ := fun _ => 0

/-! ## Claim theorems -/

theorem mem_buildScenarioVariables_kind (cfg : ProblemConfiguration) :
    ∀ v ∈ buildScenarioVariables cfg, v.kind = VarKind.continuousKind := by
  intro v hv
  simp only [buildScenarioVariables, buildScenarioVariablesForScenario,
    List.mem_flatMap, List.mem_range, List.mem_cons,
    List.mem_singleton, List.not_mem_nil, or_false] at hv
  obtain ⟨s, -, t, -, hv⟩ := hv
  rcases hv with rfl | rfl | rfl | rfl | rfl | rfl <;> rfl

/-- C3: for every configuration, the build declares exactly
`2 + 6 * numberOfScenarios * numberOfDays * 24` decision variables: the two
base variables (of which exactly one, `numberOfModules`, is integer, and
`sizeOfStorageInKwh` is continuous) plus six continuous operational
variables per (scenario, timeslot) pair. -/
theorem claim3_variable_count (cfg : ProblemConfiguration) :
    (allVariables cfg).length
        = 2 + 6 * cfg.number_of_scenarios * (cfg.number_of_days * 24)
    ∧ (allVariables cfg).countP (fun v => v.kind == VarKind.integerKind) = 1
    ∧ (buildScenarioVariables cfg).countP
        (fun v => v.kind == VarKind.continuousKind)
        = (buildScenarioVariables cfg).length
    ∧ (buildBaseVariables cfg).map DeclVar.kind
        = [VarKind.integerKind, VarKind.continuousKind] := by
  refine ⟨allVariables_length cfg, ?_, ?_, rfl⟩
  · rw [allVariables, List.countP_append]
    have h0 : (buildBaseVariables cfg).countP
        (fun v => v.kind == VarKind.integerKind) = 1 := rfl
    have h1 : (buildScenarioVariables cfg).countP
        (fun v => v.kind == VarKind.integerKind) = 0 := by
      rw [List.countP_eq_zero]
      intro v hv
      rw [mem_buildScenarioVariables_kind cfg v hv]
      decide
    rw [h0, h1]
  · rw [List.countP_eq_length]
    intro v hv
    rw [mem_buildScenarioVariables_kind cfg v hv]
    decide

/-- C4: for every configuration and every sampled stream, the build emits
exactly `numberOfScenarios * numberOfDays * 24 * 5` constraints, five per
(scenario, timeslot) loop iteration, and nothing else. -/
theorem claim4_constraint_count (cfg : ProblemConfiguration) (rng : ℕ → ℚ)
    (base : ℕ) :
    (buildConstraints cfg rng base).length
        = cfg.number_of_scenarios * cfg.number_of_days * 24 * 5
    ∧ ∀ s t, (timeslotConstraints cfg rng base s t).length = 5 := by
  refine ⟨?_, fun s t => timeslotConstraints_length cfg rng base s t⟩
  rw [buildConstraints,
    length_range_bind_const _ _ _ (buildScenarioConstraints_length cfg rng base)]
  rw [timeslotCount]
  ring

/-- C2: when the scenario count is nonzero the objective stage succeeds, and
the minimized expression evaluates, under every assignment, to the
investment cost `numberOfModules * pricePerModuleEuro + sizeOfStorageKwh *
storagePricePerKwhEuro` plus the equal-weight mean over scenarios of the
per-scenario sum of `purchasePrice[t] * boughtEnergy[s,t] / 1000 -
sellPrice[t] * soldEnergy[s,t] / 1000`. -/
theorem claim2_objective_formula (cfg : ProblemConfiguration) (rng : ℕ → ℚ)
    (base : ℕ) (ν : VarId → ℚ) (hS : cfg.number_of_scenarios ≠ 0) :
    buildObjective cfg rng base = Except.ok (objectiveExpr cfg rng base)
    ∧ evalAff ν (objectiveExpr cfg rng base)
        = ν VarId.numberOfModules * cfg.price_per_module_in_euro
          + ν VarId.sizeOfStorageInKwh * cfg.storage_price_per_kwh_in_euro
          + (∑ s in Finset.range cfg.number_of_scenarios,
              ∑ t in Finset.range (timeslotCount cfg),
                (energyPurchasePrice cfg rng base t
                    * (ν (VarId.scenarioVar s t .boughtEnergy) / 1000)
                 - energySellingPrice cfg rng base t
                    * (ν (VarId.scenarioVar s t .soldEnergy) / 1000)))
            / (cfg.number_of_scenarios : ℚ) := by
  constructor
  · simp [buildObjective, hS]
  · have h1 : evalAff ν (investmentExpr cfg)
        = cfg.price_per_module_in_euro * ν VarId.numberOfModules
          + cfg.storage_price_per_kwh_in_euro * ν VarId.sizeOfStorageInKwh := by
      simp [evalAff, investmentExpr]
    rw [objectiveExpr, evalAff_addAff, evalAff_scaleAff, evalAff_sumAff,
      List.map_map, list_range_map_sum, h1]
    have h2 : ∑ s in Finset.range cfg.number_of_scenarios,
          (evalAff ν ∘ calculateScenarioCosts cfg rng base) s
        = ∑ s in Finset.range cfg.number_of_scenarios,
            ∑ t in Finset.range (timeslotCount cfg),
              (energyPurchasePrice cfg rng base t
                  * (ν (VarId.scenarioVar s t .boughtEnergy) / 1000)
               - energySellingPrice cfg rng base t
                  * (ν (VarId.scenarioVar s t .soldEnergy) / 1000)) :=
      Finset.sum_congr rfl fun s _ =>
        evalAff_calculateScenarioCosts cfg rng base s ν
    rw [h2]
    ring

/-- C2 witness: the objective formula instantiated at the default one-day,
one-scenario configuration, the zero variate stream, and the assignment
that sets every variable to 1. -/
theorem claim2_objective_formula_witness :
    buildObjective smallConfiguration zeroStream 0
        = Except.ok (objectiveExpr smallConfiguration zeroStream 0)
    ∧ evalAff (fun _ => 1) (objectiveExpr smallConfiguration zeroStream 0)
        = (fun _ : VarId => (1 : ℚ)) VarId.numberOfModules
              * smallConfiguration.price_per_module_in_euro
          + (fun _ : VarId => (1 : ℚ)) VarId.sizeOfStorageInKwh
              * smallConfiguration.storage_price_per_kwh_in_euro
          + (∑ s in Finset.range smallConfiguration.number_of_scenarios,
              ∑ t in Finset.range (timeslotCount smallConfiguration),
                (energyPurchasePrice smallConfiguration zeroStream 0 t
                    * ((fun _ : VarId => (1 : ℚ))
                        (VarId.scenarioVar s t .boughtEnergy) / 1000)
                 - energySellingPrice smallConfiguration zeroStream 0 t
                    * ((fun _ : VarId => (1 : ℚ))
                        (VarId.scenarioVar s t .soldEnergy) / 1000)))
            / (smallConfiguration.number_of_scenarios : ℚ) :=
  claim2_objective_formula smallConfiguration zeroStream 0 (fun _ => 1)
    (by decide)

/-- C7: each solar coefficient equals
`min(max(raw, 0) * areaPerModuleM2, maxWattsPerModule)` with `raw` the
`normal(500, 200)` draw of that position (clamp at 0 first, then area
scaling, then the per-module wattage cap), and, whenever the area and the
wattage cap are nonnegative, lies in `[0, maxWattsPerModule]`. -/
theorem claim7_solar_clamping (cfg : ProblemConfiguration) (rng : ℕ → ℚ)
    (base s t : ℕ) (ha : 0 ≤ cfg.area_per_module_in_m2)
    (hw : 0 ≤ cfg.max_watts_per_module) :
    solarCoeff cfg rng base s t
        = min (max (normalDraw 500 200 rng (solarPos cfg base s t)) 0
                * cfg.area_per_module_in_m2)
            cfg.max_watts_per_module
    ∧ 0 ≤ solarCoeff cfg rng base s t
    ∧ solarCoeff cfg rng base s t ≤ cfg.max_watts_per_module := by
  refine ⟨rfl, ?_, min_le_right _ _⟩
  rw [solarCoeff, scenarioWattProductionPerModule, scenarioWattProductionClamped]
  exact le_min (mul_nonneg (le_max_right _ _) ha) hw

/-- C7 witness: the clamping identity and bounds at the default
configuration and the zero variate stream. -/
theorem claim7_solar_clamping_witness :
    solarCoeff smallConfiguration zeroStream 0 0 0
        = min (max (normalDraw 500 200 zeroStream (solarPos smallConfiguration 0 0 0)) 0
                * smallConfiguration.area_per_module_in_m2)
            smallConfiguration.max_watts_per_module
    ∧ 0 ≤ solarCoeff smallConfiguration zeroStream 0 0 0
    ∧ solarCoeff smallConfiguration zeroStream 0 0 0
        ≤ smallConfiguration.max_watts_per_module :=
  claim7_solar_clamping smallConfiguration zeroStream 0 0 0
    (by norm_num [smallConfiguration]) (by norm_num [smallConfiguration])

/-- The stream of standard-normal variates with value `n` at position `n`. -/
def countingStream : ℕ → ℚ := fun n => n

theorem solarCoeff_counting_start :
    solarCoeff smallConfiguration countingStream 0 0 0 = 600 := by
  have hraw : scenarioWattProductionRaw smallConfiguration countingStream 0 0 0
      = 500 := by
    norm_num [scenarioWattProductionRaw, normalDraw, solarPos, countingStream]
  rw [solarCoeff, scenarioWattProductionPerModule,
    scenarioWattProductionClamped, hraw, max_eq_left (by norm_num),
    show (500 : ℚ) * smallConfiguration.area_per_module_in_m2 = 600 from by
      norm_num [smallConfiguration],
    min_eq_left (by norm_num [smallConfiguration])]

theorem solarCoeff_counting_second :
    solarCoeff smallConfiguration countingStream 96 0 0 = 800 := by
  have hraw : scenarioWattProductionRaw smallConfiguration countingStream 96 0 0
      = 19700 := by
    norm_num [scenarioWattProductionRaw, normalDraw, solarPos, countingStream]
  rw [solarCoeff, scenarioWattProductionPerModule,
    scenarioWattProductionClamped, hraw, max_eq_left (by norm_num),
    show (19700 : ℚ) * smallConfiguration.area_per_module_in_m2 = 23640 from by
      norm_num [smallConfiguration],
    min_eq_right (by norm_num [smallConfiguration])]
  rfl

/-- C5 refutation: with the global stream fixed, a second build that starts
where the first one left the process-global cursor (after the
`drawsConsumed` draws of the first build) samples a different solar
profile and hence a different production-link constraint; the code never
takes a seed, it just keeps consuming the global numpy state. -/
theorem claim5_second_build_profiles_differ :
    solarProfileList smallConfiguration countingStream 0 0
        ≠ solarProfileList smallConfiguration countingStream
            (drawsConsumed smallConfiguration) 0
    ∧ producedEnergyC smallConfiguration countingStream 0 0 0
        ≠ producedEnergyC smallConfiguration countingStream
            (drawsConsumed smallConfiguration) 0 0
    ∧ drawsConsumed smallConfiguration = 96 := by
  have hd : drawsConsumed smallConfiguration = 96 := rfl
  have h96 : solarCoeff smallConfiguration countingStream
      (drawsConsumed smallConfiguration) 0 0 = 800 := by
    rw [hd]
    exact solarCoeff_counting_second
  refine ⟨?_, ?_, hd⟩
  · intro heq
    have h := congrArg (fun l => l.get? 0) heq
    simp only [solarProfileList, List.get?_map,
      List.get?_range (show 0 < timeslotCount smallConfiguration by
        norm_num [timeslotCount, smallConfiguration]),
      Option.map_some'] at h
    rw [solarCoeff_counting_start, h96] at h
    norm_num at h
  · intro heq
    have h := congrArg (fun c => c.rhs.terms) heq
    simp only [producedEnergyC] at h
    rw [solarCoeff_counting_start, h96] at h
    norm_num at h

/-- Configuration with `min_number_of_modules = 5 > 0 = max_number_of_modules`. -/
def badBoundsConfiguration : ProblemConfiguration :=
  ⟨800, 6 / 5, 670, 0, 5, 1400, 0, 1000, 1, 1⟩

/-- Configuration with `number_of_scenarios = 0`. -/
def zeroScenariosConfiguration : ProblemConfiguration :=
  ⟨800, 6 / 5, 670, 100, 0, 1400, 0, 1000, 0, 1⟩

/-- Configuration with `number_of_days = 0`. -/
def zeroDaysConfiguration : ProblemConfiguration :=
  ⟨800, 6 / 5, 670, 100, 0, 1400, 0, 1000, 1, 0⟩

/-- C8 refutation: the build performs no configuration validation at all.
With inverted module bounds it completes without any error and declares
all `2 + 6 * 24` variables; with a zero day count it also completes; and
with a zero scenario count the only failure is the division by the
scenario count in the objective stage (Python's `ZeroDivisionError`),
which the code reaches only after every variable has been declared —
never a descriptive configuration error before declaration. -/
theorem claim8_no_failfast_validation :
    buildModel badBoundsConfiguration zeroStream 0
        = Except.ok ⟨allVariables badBoundsConfiguration,
            buildConstraints badBoundsConfiguration zeroStream 0,
            objectiveExpr badBoundsConfiguration zeroStream 0⟩
    ∧ (allVariables badBoundsConfiguration).length = 2 + 6 * 24
    ∧ (buildModel zeroDaysConfiguration zeroStream 0).isOk = true
    ∧ buildModel zeroScenariosConfiguration zeroStream 0
        = Except.error BuildError.zeroDivisionInObjective
    ∧ badBoundsConfiguration.max_number_of_modules
        < badBoundsConfiguration.min_number_of_modules := by
  refine ⟨rfl, ?_, rfl, rfl, by norm_num [badBoundsConfiguration]⟩
  rw [allVariables_length]
  rfl

/-! ## C1: the storage-level defining constraints -/

/-- Whether a constraint is the initial-condition constraint of scenario `s`
or the recursion constraint of `(s, t)`. -/
def isLevelDefC (s t : ℕ) (c : LinConstraint) : Bool :=
  decide (c = initialLevelC s) || decide (c = levelRecursionC s t)

theorem isLevelDefC_produced (cfg : ProblemConfiguration) (rng : ℕ → ℚ)
    (base s t s' t' : ℕ) :
    isLevelDefC s t (producedEnergyC cfg rng base s' t') = false := by
  simp only [isLevelDefC, Bool.or_eq_false_iff, decide_eq_false_iff_not]
  constructor <;> simp [producedEnergyC, initialLevelC, levelRecursionC]

theorem isLevelDefC_consumed (cfg : ProblemConfiguration) (rng : ℕ → ℚ)
    (base s t s' t' : ℕ) :
    isLevelDefC s t (consumedEnergyC cfg rng base s' t') = false := by
  simp only [isLevelDefC, Bool.or_eq_false_iff, decide_eq_false_iff_not]
  constructor <;> simp [consumedEnergyC, initialLevelC, levelRecursionC]

theorem isLevelDefC_balance (s t s' t' : ℕ) :
    isLevelDefC s t (energyBalanceC s' t') = false := by
  simp only [isLevelDefC, Bool.or_eq_false_iff, decide_eq_false_iff_not]
  constructor <;> simp [energyBalanceC, initialLevelC, levelRecursionC]

theorem isLevelDefC_capacity (s t s' t' : ℕ) :
    isLevelDefC s t (capacityC s' t') = false := by
  simp only [isLevelDefC, Bool.or_eq_false_iff, decide_eq_false_iff_not]
  constructor <;> simp [capacityC, initialLevelC, levelRecursionC]

theorem isLevelDefC_initial (s t : ℕ) :
    isLevelDefC s t (initialLevelC s) = true := by
  simp [isLevelDefC]

theorem isLevelDefC_recursion (s t : ℕ) :
    isLevelDefC s t (levelRecursionC s t) = true := by
  simp [isLevelDefC]

theorem filter_timeslot_levelDef (cfg : ProblemConfiguration) (rng : ℕ → ℚ)
    (base s t : ℕ) :
    (timeslotConstraints cfg rng base s t).filter (isLevelDefC s t)
      = [if t = 0 then initialLevelC s else levelRecursionC s t] := by
  by_cases h0 : t = 0
  · subst h0
    simp [timeslotConstraints, List.filter_append, isLevelDefC_produced,
      isLevelDefC_consumed, isLevelDefC_balance, isLevelDefC_capacity,
      isLevelDefC_initial]
  · simp [timeslotConstraints, List.filter_append, h0,
      isLevelDefC_produced, isLevelDefC_consumed, isLevelDefC_balance,
      isLevelDefC_capacity, isLevelDefC_recursion]

/-- C1: within the five constraints emitted for a (scenario, timeslot) pair,
exactly one is a storage-level defining constraint: `storageLevel[s,0] == 0`
when `t = 0`, and `storageLevel[s,t] == storageLevel[s,t-1] +
storageEnergyDelta[s,t-1]` (previous timeslot's level and delta) when
`t > 0`; and that constraint is emitted into the model's constraint list. -/
theorem claim1_storage_level_constraints (cfg : ProblemConfiguration)
    (rng : ℕ → ℚ) (base s t : ℕ) (hs : s < cfg.number_of_scenarios)
    (ht : t < timeslotCount cfg) :
    (timeslotConstraints cfg rng base s t).filter (isLevelDefC s t)
        = [if t = 0 then initialLevelC s else levelRecursionC s t]
    ∧ (if t = 0 then initialLevelC s else levelRecursionC s t)
        ∈ buildConstraints cfg rng base := by
  refine ⟨filter_timeslot_levelDef cfg rng base s t, ?_⟩
  have hmem : (if t = 0 then initialLevelC s else levelRecursionC s t)
      ∈ timeslotConstraints cfg rng base s t := by
    by_cases h0 : t = 0 <;> simp [timeslotConstraints, h0]
  rw [buildConstraints]
  refine List.mem_flatMap.2 ⟨s, List.mem_range.2 hs, ?_⟩
  rw [buildScenarioConstraints]
  exact List.mem_flatMap.2 ⟨t, List.mem_range.2 ht, hmem⟩

/-- C1 witness: the exactness of the storage-level constraints at the
default one-scenario, one-day configuration, scenario 0, timeslot 1. -/
theorem claim1_storage_level_constraints_witness :
    (timeslotConstraints smallConfiguration zeroStream 0 0 1).filter
        (isLevelDefC 0 1)
        = [if (1 : ℕ) = 0 then initialLevelC 0 else levelRecursionC 0 1]
    ∧ (if (1 : ℕ) = 0 then initialLevelC 0 else levelRecursionC 0 1)
        ∈ buildConstraints smallConfiguration zeroStream 0 :=
  claim1_storage_level_constraints smallConfiguration zeroStream 0 0 1
    (by decide) (by decide)

/-! ## C10: occurrences of the final timeslot's storage delta -/

/-- Whether the variable `v` occurs in (either side of) the constraint. -/
def mentionsVar (c : LinConstraint) (v : VarId) : Bool :=
  decide (v ∈ c.lhs.terms.map Prod.snd) || decide (v ∈ c.rhs.terms.map Prod.snd)

theorem filter_flatMap {α β : Type} (l : List α) (f : α → List β)
    (p : β → Bool) :
    (l.flatMap f).filter p = l.flatMap fun a => (f a).filter p := by
  induction l with
  | nil => simp
  | cons a l ih => simp [List.flatMap_cons, List.filter_append, ih]

theorem range_flatMap_nil {β : Type} (n : ℕ) (f : ℕ → List β)
    (h : ∀ i, i < n → f i = []) :
    (List.range n).flatMap f = [] := by
  induction n with
  | zero => simp
  | succ m ih =>
    rw [List.range_succ, List.flatMap_append, List.flatMap_cons,
      List.flatMap_nil, List.append_nil, h m (Nat.lt_succ_self m),
      List.append_nil]
    exact ih fun i hi => h i (Nat.lt_succ_of_lt hi)

theorem range_flatMap_single {β : Type} :
    ∀ (n j : ℕ) (f : ℕ → List β) (x : β), j < n → f j = [x] →
      (∀ i, i < n → i ≠ j → f i = []) →
      (List.range n).flatMap f = [x] := by
  intro n
  induction n with
  | zero => intro j f x hj _ _; omega
  | succ m ih =>
    intro j f x hj hfj hothers
    rw [List.range_succ, List.flatMap_append, List.flatMap_cons,
      List.flatMap_nil, List.append_nil]
    by_cases hjm : j = m
    · rw [hjm] at hfj
      rw [hfj, range_flatMap_nil m f
        (fun i hi => hothers i (Nat.lt_succ_of_lt hi) (by omega)),
        List.nil_append]
    · rw [hothers m (Nat.lt_succ_self m) (fun h => hjm h.symm),
        List.append_nil]
      exact ih j f x (by omega)
        hfj (fun i hi hij => hothers i (Nat.lt_succ_of_lt hi) hij)

theorem mentionsVar_produced (cfg : ProblemConfiguration) (rng : ℕ → ℚ)
    (base s tf s' t' : ℕ) :
    mentionsVar (producedEnergyC cfg rng base s' t')
      (VarId.scenarioVar s tf .storageEnergyDelta) = false := by
  simp [mentionsVar, producedEnergyC]

theorem mentionsVar_consumed (cfg : ProblemConfiguration) (rng : ℕ → ℚ)
    (base s tf s' t' : ℕ) :
    mentionsVar (consumedEnergyC cfg rng base s' t')
      (VarId.scenarioVar s tf .storageEnergyDelta) = false := by
  simp [mentionsVar, consumedEnergyC]

theorem mentionsVar_capacity (s tf s' t' : ℕ) :
    mentionsVar (capacityC s' t')
      (VarId.scenarioVar s tf .storageEnergyDelta) = false := by
  simp [mentionsVar, capacityC]

theorem mentionsVar_initial (s tf s' : ℕ) :
    mentionsVar (initialLevelC s')
      (VarId.scenarioVar s tf .storageEnergyDelta) = false := by
  simp [mentionsVar, initialLevelC]

theorem mentionsVar_recursion (s tf s' t' : ℕ) (h : t' - 1 ≠ tf) :
    mentionsVar (levelRecursionC s' t')
      (VarId.scenarioVar s tf .storageEnergyDelta) = false := by
  simp [mentionsVar, levelRecursionC]
  omega

theorem mentionsVar_balance_self (s t : ℕ) :
    mentionsVar (energyBalanceC s t)
      (VarId.scenarioVar s t .storageEnergyDelta) = true := by
  simp [mentionsVar, energyBalanceC]

theorem mentionsVar_balance_other (s tf s' t' : ℕ)
    (h : ¬(s' = s ∧ t' = tf)) :
    mentionsVar (energyBalanceC s' t')
      (VarId.scenarioVar s tf .storageEnergyDelta) = false := by
  simp [mentionsVar, energyBalanceC]
  omega

theorem filter_timeslot_mentionsFinal (cfg : ProblemConfiguration)
    (rng : ℕ → ℚ) (base s tf s' t' : ℕ) (ht' : t' < timeslotCount cfg)
    (htf : tf = timeslotCount cfg - 1) :
    (timeslotConstraints cfg rng base s' t').filter
        (fun c => mentionsVar c (VarId.scenarioVar s tf .storageEnergyDelta))
      = if s' = s ∧ t' = tf then [energyBalanceC s' t'] else [] := by
  by_cases hc : s' = s ∧ t' = tf
  · obtain ⟨rfl, rfl⟩ := hc
    rw [if_pos ⟨rfl, rfl⟩]
    by_cases h0 : t' = 0
    · simp [timeslotConstraints, h0, List.filter_append,
        mentionsVar_produced, mentionsVar_consumed, mentionsVar_capacity,
        mentionsVar_initial, mentionsVar_balance_self]
    · simp [timeslotConstraints, h0, List.filter_append,
        mentionsVar_produced, mentionsVar_consumed, mentionsVar_capacity,
        mentionsVar_recursion s' t' s' t' (by omega),
        mentionsVar_balance_self]
  · rw [if_neg hc]
    by_cases h0 : t' = 0
    · subst h0
      simp [timeslotConstraints, List.filter_append,
        mentionsVar_produced, mentionsVar_consumed, mentionsVar_capacity,
        mentionsVar_initial,
        mentionsVar_balance_other s tf s' 0 hc]
    · simp [timeslotConstraints, h0, List.filter_append,
        mentionsVar_produced, mentionsVar_consumed, mentionsVar_capacity,
        mentionsVar_recursion s tf s' t' (by omega),
        mentionsVar_balance_other s tf s' t' hc]

/-- C10: for every scenario `s` (with a nonempty horizon), the storage delta
of the final timeslot occurs in exactly one emitted constraint, namely the
energy-balance equation of that timeslot — in particular in no
storage-level (initial or recursion) constraint, because the recursion
only ever references the delta of the preceding timeslot. -/
theorem claim10_final_delta_only_in_balance (cfg : ProblemConfiguration)
    (rng : ℕ → ℚ) (base s : ℕ) (hs : s < cfg.number_of_scenarios)
    (hd : 1 ≤ cfg.number_of_days) :
    (buildConstraints cfg rng base).filter
        (fun c => mentionsVar c
          (VarId.scenarioVar s (timeslotCount cfg - 1) .storageEnergyDelta))
      = [energyBalanceC s (timeslotCount cfg - 1)] := by
  have hT : 24 ≤ timeslotCount cfg := by
    rw [timeslotCount]
    omega
  rw [buildConstraints, filter_flatMap]
  have inner : ∀ s', (buildScenarioConstraints cfg rng base s').filter
      (fun c => mentionsVar c
        (VarId.scenarioVar s (timeslotCount cfg - 1) .storageEnergyDelta))
      = if s' = s then [energyBalanceC s (timeslotCount cfg - 1)] else [] := by
    intro s'
    rw [buildScenarioConstraints, filter_flatMap]
    by_cases hss : s' = s
    · subst hss
      rw [if_pos rfl]
      apply range_flatMap_single (timeslotCount cfg) (timeslotCount cfg - 1)
        _ _ (by omega)
      · rw [filter_timeslot_mentionsFinal cfg rng base s'
          (timeslotCount cfg - 1) s' (timeslotCount cfg - 1) (by omega) rfl]
        simp
      · intro i hi hij
        rw [filter_timeslot_mentionsFinal cfg rng base s'
          (timeslotCount cfg - 1) s' i hi rfl]
        simp [hij]
    · rw [if_neg hss]
      apply range_flatMap_nil
      intro i hi
      rw [filter_timeslot_mentionsFinal cfg rng base s
        (timeslotCount cfg - 1) s' i hi rfl]
      simp [hss]
  simp only [inner]
  exact range_flatMap_single cfg.number_of_scenarios s _ _ hs (if_pos rfl)
    (fun i _ hij => if_neg hij)

/-- C10 witness: at the default one-scenario, one-day configuration the
final-timeslot delta of scenario 0 occurs exactly in the final balance
equation. -/
theorem claim10_final_delta_only_in_balance_witness :
    (buildConstraints smallConfiguration zeroStream 0).filter
        (fun c => mentionsVar c (VarId.scenarioVar 0
            (timeslotCount smallConfiguration - 1) .storageEnergyDelta))
      = [energyBalanceC 0 (timeslotCount smallConfiguration - 1)] :=
  claim10_final_delta_only_in_balance smallConfiguration zeroStream 0 0
    (by decide) (by decide)

/-! ## C6: which coefficients vary across scenarios -/

/-- The variable coefficients (multipliers, left side then right side) of a
constraint, without the constant terms and the variable identities. -/
def varCoeffs (c : LinConstraint) : List ℚ × List ℚ :=
  (c.lhs.terms.map Prod.fst, c.rhs.terms.map Prod.fst)

/-- The default configuration with two scenarios and one day. -/
def twoScenariosConfiguration : ProblemConfiguration :=
  ⟨800, 6 / 5, 670, 100, 0, 1400, 0, 1000, 2, 1⟩

theorem solarCoeff_two_start :
    solarCoeff twoScenariosConfiguration countingStream 0 0 0 = 600 := by
  have hraw : scenarioWattProductionRaw twoScenariosConfiguration
      countingStream 0 0 0 = 500 := by
    norm_num [scenarioWattProductionRaw, normalDraw, solarPos, countingStream]
  rw [solarCoeff, scenarioWattProductionPerModule,
    scenarioWattProductionClamped, hraw, max_eq_left (by norm_num),
    show (500 : ℚ) * twoScenariosConfiguration.area_per_module_in_m2 = 600 from by
      norm_num [twoScenariosConfiguration],
    min_eq_left (by norm_num [twoScenariosConfiguration])]

theorem solarCoeff_two_scenario1 :
    solarCoeff twoScenariosConfiguration countingStream 0 1 0 = 800 := by
  have hraw : scenarioWattProductionRaw twoScenariosConfiguration
      countingStream 0 1 0 = 10100 := by
    norm_num [scenarioWattProductionRaw, normalDraw, solarPos, countingStream,
      timeslotCount, twoScenariosConfiguration]
  rw [solarCoeff, scenarioWattProductionPerModule,
    scenarioWattProductionClamped, hraw, max_eq_left (by norm_num),
    show (10100 : ℚ) * twoScenariosConfiguration.area_per_module_in_m2
        = 12120 from by norm_num [twoScenariosConfiguration],
    min_eq_right (by norm_num [twoScenariosConfiguration])]
  rfl

theorem solarCoeff_two_timeslot1 :
    solarCoeff twoScenariosConfiguration countingStream 0 0 1 = 800 := by
  have hraw : scenarioWattProductionRaw twoScenariosConfiguration
      countingStream 0 0 1 = 700 := by
    norm_num [scenarioWattProductionRaw, normalDraw, solarPos, countingStream]
  rw [solarCoeff, scenarioWattProductionPerModule,
    scenarioWattProductionClamped, hraw, max_eq_left (by norm_num),
    show (700 : ℚ) * twoScenariosConfiguration.area_per_module_in_m2 = 840 from by
      norm_num [twoScenariosConfiguration],
    min_eq_right (by norm_num [twoScenariosConfiguration])]
  rfl

/-- C6: every emitted constraint is either a production-link constraint of
some emitted (scenario, timeslot) pair or has one of the four fixed
coefficient signatures — independent of the scenario, the timeslot and the
sampled stream (LP coefficients, i.e. variable multipliers; the
consumption-link right-hand constant is not a coefficient) — while the
production-link coefficient does vary both across scenarios and across
timeslots on a concrete emitted instance. -/
theorem claim6_solar_only_varying_coefficient :
    (∀ (cfg : ProblemConfiguration) (rng : ℕ → ℚ) (base : ℕ)
        (c : LinConstraint), c ∈ buildConstraints cfg rng base →
        (∃ s t, s < cfg.number_of_scenarios ∧ t < timeslotCount cfg
            ∧ c = producedEnergyC cfg rng base s t)
        ∨ varCoeffs c ∈ [([1], ([] : List ℚ)), ([1, -1], [1, 1, -1]),
            ([1], [1, 1]), ([1], [1000])])
    ∧ varCoeffs (producedEnergyC twoScenariosConfiguration countingStream 0 0 0)
        ≠ varCoeffs (producedEnergyC twoScenariosConfiguration countingStream 0 1 0)
    ∧ varCoeffs (producedEnergyC twoScenariosConfiguration countingStream 0 0 0)
        ≠ varCoeffs (producedEnergyC twoScenariosConfiguration countingStream 0 0 1)
    ∧ producedEnergyC twoScenariosConfiguration countingStream 0 1 0
        ∈ buildConstraints twoScenariosConfiguration countingStream 0 := by
  refine ⟨?_, ?_, ?_, ?_⟩
  · intro cfg rng base c hc
    rw [buildConstraints] at hc
    obtain ⟨s, hs, hc⟩ := List.mem_flatMap.1 hc
    rw [buildScenarioConstraints] at hc
    obtain ⟨t, ht, hc⟩ := List.mem_flatMap.1 hc
    by_cases h0 : t = 0
    · subst h0
      simp only [timeslotConstraints, reduceIte, ne_eq, not_true_eq_false,
        if_false, List.append_nil, List.nil_append, List.cons_append,
        List.mem_append, List.mem_cons, List.not_mem_nil, or_false,
        List.mem_singleton] at hc
      rcases hc with rfl | rfl | rfl | rfl | rfl
      · exact Or.inl ⟨s, 0, List.mem_range.1 hs, List.mem_range.1 ht, rfl⟩
      · right
        simp [varCoeffs, consumedEnergyC]
      · right
        simp [varCoeffs, energyBalanceC]
      · right
        simp [varCoeffs, initialLevelC]
      · right
        simp [varCoeffs, capacityC]
    · simp only [timeslotConstraints, h0, if_false, if_neg h0, ne_eq,
        not_false_eq_true, if_true, List.append_nil, List.nil_append,
        List.cons_append, List.mem_append, List.mem_cons, List.not_mem_nil,
        or_false, List.mem_singleton] at hc
      rcases hc with rfl | rfl | rfl | rfl | rfl
      · exact Or.inl ⟨s, t, List.mem_range.1 hs, List.mem_range.1 ht, rfl⟩
      · right
        simp [varCoeffs, consumedEnergyC]
      · right
        simp [varCoeffs, energyBalanceC]
      · right
        simp [varCoeffs, levelRecursionC]
      · right
        simp [varCoeffs, capacityC]
  · intro h
    simp only [varCoeffs, producedEnergyC, List.map_cons, List.map_nil,
      Prod.mk.injEq, List.cons.injEq, and_true, true_and] at h
    rw [solarCoeff_two_start, solarCoeff_two_scenario1] at h
    norm_num at h
  · intro h
    simp only [varCoeffs, producedEnergyC, List.map_cons, List.map_nil,
      Prod.mk.injEq, List.cons.injEq, and_true, true_and] at h
    rw [solarCoeff_two_start, solarCoeff_two_timeslot1] at h
    norm_num at h
  · rw [buildConstraints]
    refine List.mem_flatMap.2 ⟨1, List.mem_range.2 (by decide), ?_⟩
    rw [buildScenarioConstraints]
    refine List.mem_flatMap.2 ⟨0, List.mem_range.2 (by decide), ?_⟩
    simp [timeslotConstraints]

/-- C6 witness: the characterization applied to the consumption-link
constraint of scenario 0, timeslot 0, in the default one-scenario model. -/
theorem claim6_solar_only_varying_coefficient_witness :
    (∃ s t, s < smallConfiguration.number_of_scenarios
        ∧ t < timeslotCount smallConfiguration
        ∧ consumedEnergyC smallConfiguration zeroStream 0 0 0
            = producedEnergyC smallConfiguration zeroStream 0 s t)
    ∨ varCoeffs (consumedEnergyC smallConfiguration zeroStream 0 0 0)
        ∈ [([1], ([] : List ℚ)), ([1, -1], [1, 1, -1]),
            ([1], [1, 1]), ([1], [1000])] :=
  claim6_solar_only_varying_coefficient.1 smallConfiguration zeroStream 0 _
    (by rw [buildConstraints]
        refine List.mem_flatMap.2 ⟨0, List.mem_range.2 (by decide), ?_⟩
        rw [buildScenarioConstraints]
        refine List.mem_flatMap.2 ⟨0, List.mem_range.2 (by decide), ?_⟩
        simp [timeslotConstraints])

/-! ## C9: simultaneous buying and selling is not forbidden -/

/-- Bounds and integrality discipline of one declared variable under an
assignment. -/
def DeclVar.boundsOk (ν : VarId → ℚ) (v : DeclVar) : Prop :=
  v.lowerBound ≤ ν v.id
  ∧ (∀ u, v.upperBound = some u → ν v.id ≤ u)
  ∧ (v.kind = VarKind.integerKind → ∃ z : ℤ, ν v.id = (z : ℚ))

/-- The assignment satisfies the whole built model: every declared bound
(and integrality) and every emitted constraint. -/
def satisfiesModel (cfg : ProblemConfiguration) (rng : ℕ → ℚ) (base : ℕ)
    (ν : VarId → ℚ) : Prop :=
  (∀ v ∈ allVariables cfg, DeclVar.boundsOk ν v)
  ∧ (∀ c ∈ buildConstraints cfg rng base, c.sat ν)

/-- Feasible point exhibiting simultaneous buying and selling: module count
`m`, storage size `max(minStorage, 0)`, zero storage activity, exact
production and consumption, and in every timeslot buying and selling one
watt-hour more than the one-sided imbalance. -/
def buySellAsg (cfg : ProblemConfiguration) (rng : ℕ → ℚ) (base m : ℕ) :
    VarId → ℚ
  | .numberOfModules => m
  | .sizeOfStorageInKwh => max cfg.min_storage_size_in_kwh 0
  | .scenarioVar s t f =>
    match f with
    | .storageLevel => 0
    | .storageEnergyDelta => 0
    | .producedEnergy => solarCoeff cfg rng base s t * m
    | .consumedEnergy => scenarioWattUsage cfg rng base s t
    | .boughtEnergy =>
        max 0 (scenarioWattUsage cfg rng base s t
          - solarCoeff cfg rng base s t * m) + 1
    | .soldEnergy =>
        max 0 (solarCoeff cfg rng base s t * m
          - scenarioWattUsage cfg rng base s t) + 1

theorem solarCoeff_nonneg (cfg : ProblemConfiguration) (rng : ℕ → ℚ)
    (base s t : ℕ) (ha : 0 ≤ cfg.area_per_module_in_m2)
    (hw : 0 ≤ cfg.max_watts_per_module) :
    0 ≤ solarCoeff cfg rng base s t := by
  rw [solarCoeff, scenarioWattProductionPerModule, scenarioWattProductionClamped]
  exact le_min (mul_nonneg (le_max_right _ _) ha) hw

theorem scenarioWattUsage_nonneg (cfg : ProblemConfiguration) (rng : ℕ → ℚ)
    (base s t : ℕ) : 0 ≤ scenarioWattUsage cfg rng base s t :=
  le_max_right _ _

theorem max_sub_max_sub (a b : ℚ) : max 0 (a - b) - max 0 (b - a) = a - b := by
  rcases le_total a b with h | h
  · rw [max_eq_left (by linarith), max_eq_right (by linarith)]
    linarith
  · rw [max_eq_right (by linarith), max_eq_left (by linarith)]
    linarith

/-- C9: the emitted constraint system never forbids simultaneous positive
buying and selling: for every configuration with consistent bounds
(minModules ≤ some integer m ≤ maxModules, minStorage ≤ maxStorage,
0 ≤ maxStorage, nonnegative area and wattage cap) and every sampled
stream, the explicit assignment `buySellAsg` satisfies every declared
bound and every emitted constraint while buying and selling strictly
positive amounts in every scenario and timeslot. -/
theorem claim9_simultaneous_buy_sell_feasible (cfg : ProblemConfiguration)
    (rng : ℕ → ℚ) (base m : ℕ)
    (hmlo : cfg.min_number_of_modules ≤ (m : ℚ))
    (hmhi : (m : ℚ) ≤ cfg.max_number_of_modules)
    (hslo : cfg.min_storage_size_in_kwh ≤ cfg.max_storage_size_in_kwh)
    (hshi : 0 ≤ cfg.max_storage_size_in_kwh)
    (ha : 0 ≤ cfg.area_per_module_in_m2)
    (hw : 0 ≤ cfg.max_watts_per_module) :
    satisfiesModel cfg rng base (buySellAsg cfg rng base m)
    ∧ ∀ s t, 0 < buySellAsg cfg rng base m (VarId.scenarioVar s t .boughtEnergy)
        ∧ 0 < buySellAsg cfg rng base m (VarId.scenarioVar s t .soldEnergy) := by
  have hstore : (0 : ℚ) ≤ cfg.max_storage_size_in_kwh * 1000 :=
    mul_nonneg hshi (by norm_num)
  refine ⟨⟨?_, ?_⟩, ?_⟩
  · intro v hv
    rw [allVariables, List.mem_append] at hv
    rcases hv with hv | hv
    · simp only [buildBaseVariables, List.mem_cons, List.not_mem_nil,
        or_false, List.mem_singleton] at hv
      rcases hv with rfl | rfl
      · refine ⟨hmlo, fun u hu => ?_, fun _ => ⟨(m : ℤ), by simp [buySellAsg]⟩⟩
        injection hu with hu
        subst hu
        exact hmhi
      · refine ⟨le_max_left _ _, fun u hu => ?_, fun hk => by simp at hk⟩
        injection hu with hu
        subst hu
        exact max_le hslo hshi
    · rw [buildScenarioVariables] at hv
      obtain ⟨s, hs, hv⟩ := List.mem_flatMap.1 hv
      rw [buildScenarioVariablesForScenario] at hv
      obtain ⟨t, ht, hv⟩ := List.mem_flatMap.1 hv
      have hsol : 0 ≤ solarCoeff cfg rng base s t * (m : ℚ) :=
        mul_nonneg (solarCoeff_nonneg cfg rng base s t ha hw)
          (by positivity)
      simp only [List.mem_cons, List.not_mem_nil, or_false,
        List.mem_singleton] at hv
      rcases hv with rfl | rfl | rfl | rfl | rfl | rfl
      · refine ⟨le_refl 0, fun u hu => ?_, fun hk => by simp at hk⟩
        injection hu with hu
        subst hu
        exact hstore
      · refine ⟨neg_nonpos.2 hstore, fun u hu => ?_, fun hk => by simp at hk⟩
        injection hu with hu
        subst hu
        exact hstore
      · exact ⟨hsol, fun u hu => by simp at hu, fun hk => by simp at hk⟩
      · exact ⟨scenarioWattUsage_nonneg cfg rng base s t,
          fun u hu => by simp at hu, fun hk => by simp at hk⟩
      · exact ⟨add_nonneg (le_max_left 0 _) zero_le_one,
          fun u hu => by simp at hu, fun hk => by simp at hk⟩
      · exact ⟨add_nonneg (le_max_left 0 _) zero_le_one,
          fun u hu => by simp at hu, fun hk => by simp at hk⟩
  · intro c hc
    rw [buildConstraints] at hc
    obtain ⟨s, hs, hc⟩ := List.mem_flatMap.1 hc
    rw [buildScenarioConstraints] at hc
    obtain ⟨t, ht, hc⟩ := List.mem_flatMap.1 hc
    by_cases h0 : t = 0
    · subst h0
      simp only [timeslotConstraints, reduceIte, ne_eq, not_true_eq_false,
        if_false, List.append_nil, List.nil_append, List.cons_append,
        List.mem_append, List.mem_cons, List.not_mem_nil, or_false,
        List.mem_singleton] at hc
      rcases hc with rfl | rfl | rfl | rfl | rfl
      · simp [LinConstraint.sat, evalAff, producedEnergyC, buySellAsg]
      · simp [LinConstraint.sat, evalAff, consumedEnergyC, buySellAsg]
      · simp [LinConstraint.sat, evalAff, energyBalanceC, buySellAsg]
        have := max_sub_max_sub (solarCoeff cfg rng base s 0 * (m : ℚ))
          (scenarioWattUsage cfg rng base s 0)
        linarith
      · simp [LinConstraint.sat, evalAff, initialLevelC, buySellAsg]
      · simp [LinConstraint.sat, evalAff, capacityC, buySellAsg]
    · simp only [timeslotConstraints, h0, if_false, if_neg h0, ne_eq,
        not_false_eq_true, if_true, List.append_nil, List.nil_append,
        List.cons_append, List.mem_append, List.mem_cons, List.not_mem_nil,
        or_false, List.mem_singleton] at hc
      rcases hc with rfl | rfl | rfl | rfl | rfl
      · simp [LinConstraint.sat, evalAff, producedEnergyC, buySellAsg]
      · simp [LinConstraint.sat, evalAff, consumedEnergyC, buySellAsg]
      · simp [LinConstraint.sat, evalAff, energyBalanceC, buySellAsg]
        have := max_sub_max_sub (solarCoeff cfg rng base s t * (m : ℚ))
          (scenarioWattUsage cfg rng base s t)
        linarith
      · simp [LinConstraint.sat, evalAff, levelRecursionC, buySellAsg]
      · simp [LinConstraint.sat, evalAff, capacityC, buySellAsg]
  · intro s t
    constructor
    · simp only [buySellAsg]
      have := le_max_left (0 : ℚ) (scenarioWattUsage cfg rng base s t
        - solarCoeff cfg rng base s t * m)
      linarith
    · simp only [buySellAsg]
      have := le_max_left (0 : ℚ) (solarCoeff cfg rng base s t * m
        - scenarioWattUsage cfg rng base s t)
      linarith

/-- C9 witness: the feasible simultaneous-buy-and-sell assignment at the
default one-scenario configuration, zero modules, zero variate stream,
with strictly positive buying and selling at scenario 0, timeslot 0. -/
theorem claim9_simultaneous_buy_sell_feasible_witness :
    satisfiesModel smallConfiguration zeroStream 0
        (buySellAsg smallConfiguration zeroStream 0 0)
    ∧ 0 < buySellAsg smallConfiguration zeroStream 0 0
        (VarId.scenarioVar 0 0 .boughtEnergy)
    ∧ 0 < buySellAsg smallConfiguration zeroStream 0 0
        (VarId.scenarioVar 0 0 .soldEnergy) :=
  ⟨(claim9_simultaneous_buy_sell_feasible smallConfiguration zeroStream 0 0
      (by norm_num [smallConfiguration]) (by norm_num [smallConfiguration])
      (by norm_num [smallConfiguration]) (by norm_num [smallConfiguration])
      (by norm_num [smallConfiguration]) (by norm_num [smallConfiguration])).1,
   (claim9_simultaneous_buy_sell_feasible smallConfiguration zeroStream 0 0
      (by norm_num [smallConfiguration]) (by norm_num [smallConfiguration])
      (by norm_num [smallConfiguration]) (by norm_num [smallConfiguration])
      (by norm_num [smallConfiguration]) (by norm_num [smallConfiguration])).2 0 0⟩
